import Mathlib

/-!
Shallow embedding of `commerce/bookstore/python/load_data.py` (TypeDB
bookstore loading script) and proofs of its specified properties.

Conventions of the embedding:
* A CSV file is represented as its list of lines (strings without `\n`).
* Records (Python dictionaries built by `csv.DictReader`) keep the source's
  semantics: the first row supplies the field names, blank lines (rows that
  the csv reader returns as `[]`) are skipped by `DictReader`, rows shorter
  than the header pad missing fields with `none` (Python `None`), rows longer
  than the header put the extras under the rest key.
* Python exceptions are modelled with `Except PyErr`; external database
  calls (session/transaction machinery) are opaque per the spec, so the
  outcome of a query submission is supplied by the environment.
* Console printing is tracked only where a verified property refers to it
  (the per-pass summary line, schema failure report, user-abort message);
  purely cosmetic chatter is not part of the observable state.
-/

/-- Python exceptions that the script can raise, as far as the verified
properties need to distinguish them. -/
inductive PyErr where
  | typeError          -- e.g. subscripting a class object: `input["file"]`
  | unboundLocalError  -- reading a local variable never assigned
  deriving DecidableEq, Repr

/-- One parsed CSV data row, as produced by `csv.DictReader`:
`entries` pairs each header field name with the row's value (`none` when the
row is shorter than the header, Python's `restval=None`), and `rest` holds
surplus fields of rows longer than the header (Python's `restkey` entry). -/
structure Item where
  entries : List (String × Option String)
  rest : List String
  deriving DecidableEq, Repr

/-- Modelled from the spec: the Statement Builder classes live in
`loaders.py`, which is not part of the sources; per §2/§4.2 a builder
"knows its source file path" (`file`, a class attribute shared by every
instance) and "builds an insert statement from a Record" (`load`, returning
either an insert query or the empty string meaning skip).  Builders are
plain Python classes, hence not subscriptable: `builder["file"]` raises
`TypeError`.  `name` is the Python class name (`input.__name__`). -/
structure Builder where
  name : String
  file : String
  load : Item → String

/-- Modelled from the spec: `config.py` is not part of the sources; it
supplies the target database name used throughout the script. -/
def config_db : String := "bookstore"

/-- Drop the leading space characters of a field
(`skipinitialspace=True`; CPython skips `' '` only, at field start). -/
def stripLeadingSpaces (s : String) : String :=
  ⟨s.data.dropWhile (· = ' ')⟩

/-- Split a character list at every `;` (structural version of splitting a
line into raw csv fields; one field, possibly empty, per delimiter gap). -/
def splitSemi : List Char → List (List Char)
  | [] => [[]]
  | c :: rest =>
      let r := splitSemi rest
      if c = ';' then [] :: r
      else (c :: r.headD []) :: r.tail

/-- One line through the csv reader with `delimiter=";"` and
`skipinitialspace=True`: a blank line yields the empty row `[]`; otherwise
the line is split on `;` and each field loses its leading spaces.
(Quoting is not exercised by the bookstore CSV files and is not modelled.) -/
def csvSplitLine (line : String) : List String :=
  if line = "" then []
  else (splitSemi line.data).map (fun cs => stripLeadingSpaces ⟨cs⟩)

/-- Pair one csv row with the header fields, as `csv.DictReader.__next__`
does: each field name gets the positional value (or `none` past the row's
end), and surplus row values land in `rest`. -/
def zipRecord (fields row : List String) : Item :=
  { entries := (List.range fields.length).map (fun i =>
      (fields.getD i "", row.get? i))
    rest := row.drop fields.length }

/-- `csv.DictReader` over the file's lines: the first row (even a blank
one) becomes the header; every later row that the csv reader returns as
non-empty (`row != []`) becomes one record, blank lines are skipped. -/
def dictReader (lines : List String) : List Item :=
  match lines with
  | [] => []
  | header :: rest =>
      let fields := csvSplitLine header
      ((rest.map csvSplitLine).filter (· ≠ [])).map (zipRecord fields)

/-- `parse_data_to_dictionaries(input)`: with verbosity on, the very first
statement evaluates `input["file"]` — but `input` is the builder *class*,
which is not subscriptable, so the call raises `TypeError` before opening
the file.  With verbosity off it streams the file through `csv.DictReader`
and returns the list of records. -/
def parse_data_to_dictionaries (debug : Bool) (inp : Builder)
    (lines : List String) : Except PyErr (List Item) :=
  if debug then
    Except.error PyErr.typeError
  else
    Except.ok (dictReader lines)

/-- The per-record loop of `load_data_into_typedb`: for each item a write
transaction is opened, the builder instance `input(item)` produces the
query `input_object.load()`; a non-empty query is submitted and committed
(the submission's result `outcome q` is received from the database but
never inspected — the source's `todo`), an empty query only bumps
`skip_count` and the transaction is discarded.  Returns the final
`skip_count` together with the queries committed, in order. -/
def loadPass (inp : Builder) (outcome : String → Bool) :
    List Item → Nat × List String
  | [] => (0, [])
  | item :: rest =>
      let q := inp.load item
      if q = "" then
        let r := loadPass inp outcome rest
        (r.1 + 1, r.2)
      else
        let _res := outcome q   -- transaction result, ignored by the source
        let r := loadPass inp outcome rest
        (r.1, q :: r.2)

/-- Result of one completed load pass (one builder type). -/
structure PassResult where
  inserted : Nat
  skipped : Nat
  total : Nat
  committed : List String
  summary : String
  deriving DecidableEq, Repr

/-- `load_data_into_typedb(input, session)`: parses the builder's file,
runs the per-record loop, then prints the summary line
`"Inserted <n-skip> out of <n> items from [ <file>] into TypeDB with <name>"`.
The summary reads `input_object.file`, a local assigned only inside the
loop body — with zero records the print raises `UnboundLocalError`. -/
def load_data_into_typedb (debug : Bool) (inp : Builder)
    (outcome : String → Bool) (lines : List String) :
    Except PyErr PassResult :=
  match parse_data_to_dictionaries debug inp lines with
  | Except.error e => Except.error e
  | Except.ok items =>
      let r := loadPass inp outcome items
      match items with
      | [] => Except.error PyErr.unboundLocalError
      | _ :: _ =>
          Except.ok
            { inserted := items.length - r.1
              skipped := r.1
              total := items.length
              committed := r.2
              summary := "Inserted " ++ toString (items.length - r.1)
                ++ " out of " ++ toString items.length ++ " items from [ "
                ++ inp.file ++ "] into TypeDB with " ++ inp.name }

/-- The database operations the script can issue over the client boundary
(the client itself is an opaque external service per the spec). -/
inductive DBOp where
  | deleteDB
  | createDB
  | defineSchema
  | commitSchema
  | submitInsert (q : String)
  | commitInsert (q : String)
  deriving DecidableEq, Repr

/-- How a run of the script ends. -/
inductive ExitStatus where
  | normal
  | userAbort          -- `exit("Database was not deleted due to user choice. Exiting.")`
  | crashed (e : PyErr)  -- an uncaught Python exception
  deriving DecidableEq, Repr

/-- The run's observable behaviour: the database operations issued in
order, the console messages the verified properties refer to, and how the
process ended. -/
structure Run where
  ops : List DBOp
  prints : List String
  status : ExitStatus
  deriving DecidableEq, Repr

/-- The environment of one run: everything the script reads from the
outside world.  `probe` is the outcome of the canonical read query of
`has_existing_data` (`error` = the query raised, with its message);
`schemaResult` the outcome of the schema define+commit; `insertOutcome`
tells, per submitted query, whether the database actually inserted
anything (the script never looks at it); `files` maps a file path to the
file's lines; `builders` stands for `loaders.Input_types_list`. -/
structure Env where
  dbExists : Bool
  probe : Except String Unit
  userInput : String
  schemaResult : Except String Unit
  insertOutcome : String → Bool
  builders : List Builder
  files : String → List String
  debug : Bool

/-- `has_existing_data()`: runs the canonical probe read query
`match $b isa book, has ISBN $x; get $x; limit 3;` inside a bare
`try`/`except`: success returns `True`; *any* exception is caught and
returns `False` (nothing is surfaced to the user). -/
def has_existing_data (probe : Except String Unit) : Bool :=
  match probe with
  | Except.ok _ => true
  | Except.error _ => false

/-- `load_schema()`: reads `../schema.tql` and submits it as one define
transaction; on success it commits, prints the loaded message and returns
`True`; if define or commit raises, the exception is caught, the failure
is printed and it returns `False` (no schema commit happened). -/
def load_schema (schemaResult : Except String Unit) :
    Bool × List DBOp × List String :=
  match schemaResult with
  | Except.ok _ =>
      (true, [DBOp.defineSchema, DBOp.commitSchema],
        ["Loaded the " ++ config_db ++ " schema."])
  | Except.error e =>
      (false, [DBOp.defineSchema], ["Failed to load schema: " ++ e])

/-- The database operations of one completed load pass: each committed
query was first submitted, then committed, in record order. -/
def passOps (committed : List String) : List DBOp :=
  committed.flatMap (fun q => [DBOp.submitInsert q, DBOp.commitInsert q])

/-- `load_data()`'s loop over `loaders.Input_types_list`: runs
`load_data_into_typedb` per builder type in order; an uncaught exception
aborts the whole run (operations already issued stay issued — both
modelled exceptions fire before any query of their pass is submitted). -/
def loadAll (debug : Bool) (outcome : String → Bool)
    (files : String → List String) :
    List Builder → List DBOp × List String × Option PyErr
  | [] => ([], [], none)
  | inp :: rest =>
      match load_data_into_typedb debug inp outcome (files inp.file) with
      | Except.error e => ([], [], some e)
      | Except.ok r =>
          let t := loadAll debug outcome files rest
          (passOps r.committed ++ t.1, r.summary :: t.2.1, t.2.2)

/-- `load_data()`: session setup plus `loadAll`; prints the completion
message when every pass finished. -/
def load_data (env : Env) : List DBOp × List String × Option PyErr :=
  let t := loadAll env.debug env.insertOutcome env.files env.builders
  match t.2.2 with
  | none => (t.1, t.2.1 ++ ["\nData loading complete!"], none)
  | some e => (t.1, t.2.1, some e)

/-- Truthiness-carrying Python value, for the confirmation expression. -/
inductive PyVal where
  | bool (b : Bool)
  | str (s : String)
  deriving DecidableEq, Repr

/-- Python truthiness: `False` is falsy, a string is truthy iff non-empty. -/
def PyVal.truthy : PyVal → Bool
  | PyVal.bool b => b
  | PyVal.str s => s ≠ ""

/-- Python `or`: returns its first truthy operand, else the second one. -/
def pyOr (a b : PyVal) : PyVal := if a.truthy then a else b

/-- The value of the source expression
`input("Type in Delete to proceed with deletion: ") == "delete" or "Delete" or "DELETE"`
for a given typed-in string: Python parses it as
`(s == "delete") or "Delete" or "DELETE"`. -/
def confirmValue (s : String) : PyVal :=
  pyOr (pyOr (PyVal.bool (s = "delete")) (PyVal.str "Delete")) (PyVal.str "DELETE")

/-- Truthiness of `confirmValue`, i.e. whether the `if` guarding the
database deletion is taken. -/
def confirmTaken (s : String) : Bool := (confirmValue s).truthy

/-- The tail shared by the three loading branches of the main body:
`if load_schema(): load_data()`, appended after the branch's own
database operations `pre`. -/
def schemaThenData (env : Env) (pre : List DBOp) : Run :=
  let s := load_schema env.schemaResult
  if s.1 then
    let d := load_data env
    { ops := pre ++ s.2.1 ++ d.1
      prints := s.2.2 ++ d.2.1
      status := match d.2.2 with
        | none => ExitStatus.normal
        | some e => ExitStatus.crashed e }
  else
    { ops := pre ++ s.2.1, prints := s.2.2, status := ExitStatus.normal }

/-- The main body of the script: checks database existence, dispatches on
`has_existing_data`, asks for the destructive-reload confirmation when
data is present, and runs schema load plus data load in the chosen
branch. -/
def main_body (env : Env) : Run :=
  if env.dbExists then
    if has_existing_data env.probe = false then
      schemaThenData env []
    else
      if confirmTaken env.userInput then
        schemaThenData env [DBOp.deleteDB, DBOp.createDB]
      else
        { ops := []
          prints := ["Database was not deleted due to user choice. Exiting."]
          status := ExitStatus.userAbort }
  else
    schemaThenData env [DBOp.createDB]

/-- Temporal predicate on an operation trace: no insert query is submitted
strictly before the first successful schema commit. -/
def noInsertBeforeSchemaCommit : List DBOp → Bool
  | [] => true
  | DBOp.commitSchema :: _ => true
  | DBOp.submitInsert _ :: _ => false
  | _ :: rest => noInsertBeforeSchemaCommit rest

/-- Whether a trace submits any insert query at all. -/
def hasInsert (ops : List DBOp) : Bool :=
  ops.any fun op =>
    match op with
    | DBOp.submitInsert _ => true
    | _ => false

/-- Concrete builder whose statement builder always skips
(returns the empty statement for every record). -/
def bookSkipBuilder : Builder :=
  { name := "Book", file := "books.csv", load := fun _ => "" }

/-- Concrete builder whose statement builder always emits the same
insert statement. -/
def bookInsertBuilder : Builder :=
  { name := "Book", file := "books.csv",
    load := fun _ => "insert $b isa book;" }

/-- A concrete record with no fields. -/
def emptyItem : Item := { entries := [], rest := [] }

/-- Concrete environment: database exists with data, the user answers
`"no"` to the deletion prompt. -/
def envDecline : Env :=
  { dbExists := true, probe := Except.ok (), userInput := "no"
    schemaResult := Except.ok (), insertOutcome := fun _ => true
    builders := [], files := fun _ => [], debug := false }

/-- Concrete environment: fresh database, one builder type with a two-line
CSV file; `debug` selects whether the verbosity flag is set. -/
def envFresh (debug : Bool) : Env :=
  { dbExists := false, probe := Except.error "no data", userInput := ""
    schemaResult := Except.ok (), insertOutcome := fun _ => true
    builders := [bookInsertBuilder]
    files := fun _ => ["title;author", "a;b"], debug := debug }

/-- Concrete environment: database exists with data, the user types
`"delete"`, schema load succeeds, one builder type. -/
def envReload : Env :=
  { dbExists := true, probe := Except.ok (), userInput := "delete"
    schemaResult := Except.ok (), insertOutcome := fun _ => true
    builders := [bookInsertBuilder]
    files := fun _ => ["title;author", "a;b"], debug := false }

/-- Concrete environment: fresh database, schema submission raises. -/
def envSchemaFail : Env :=
  { dbExists := false, probe := Except.error "no data", userInput := ""
    schemaResult := Except.error "boom", insertOutcome := fun _ => true
    builders := [bookInsertBuilder]
    files := fun _ => ["title;author", "a;b"], debug := false }

/-- The result of the concrete pass of `bookSkipBuilder` over the
two-line file `["h", "a"]`: one record parsed, skipped. -/
def witnessPassResult : PassResult :=
  { inserted := 0, skipped := 1, total := 1, committed := []
    summary :=
      "Inserted 0 out of 1 items from [ books.csv] into TypeDB with Book" }

/- ------------------------------------------------------------------ -/
/- Helper lemmas                                                      -/
/- ------------------------------------------------------------------ -/

/-- The skip counter of one pass never exceeds the number of records. -/
theorem loadPass_skip_le (inp : Builder) (f : String → Bool)
    (items : List Item) : (loadPass inp f items).1 ≤ items.length := by
  induction items with
  | nil => simp [loadPass]
  | cons it its ih =>
      by_cases h : inp.load it = "" <;> simp [loadPass, h] <;> omega

/-- The confirmation guard of the deletion branch is true for *every*
typed-in string: `s == "delete"` may be `False`, but then the expression's
value is the non-empty (hence truthy) string literal `"Delete"`. -/
theorem confirmTaken_true (s : String) : confirmTaken s = true := by
  by_cases h : s = "delete" <;>
    simp [confirmTaken, confirmValue, pyOr, PyVal.truthy, h]

/-- `splitSemi` always yields at least one field. -/
theorem splitSemi_ne_nil (cs : List Char) : splitSemi cs ≠ [] := by
  cases cs with
  | nil => simp [splitSemi]
  | cons c rest =>
      simp only [splitSemi]
      split <;> simp

/-- A non-blank line never becomes the empty csv row. -/
theorem csvSplitLine_ne_nil (l : String) (h : l ≠ "") :
    csvSplitLine l ≠ [] := by
  simp only [csvSplitLine, if_neg h, ne_eq, List.map_eq_nil_iff]
  exact splitSemi_ne_nil l.data

/-- Reading a list back positionally recovers the list. -/
theorem range_map_getD (fields : List String) :
    (List.range fields.length).map (fun i => fields.getD i "") = fields := by
  induction fields with
  | nil => simp
  | cons f fs ih =>
      rw [List.length_cons, List.range_succ_eq_map, List.map_cons,
        List.map_map]
      simp only [List.getD_cons_zero, Function.comp_def, List.getD_cons_succ]
      rw [ih]

/-- The keys of a zipped record are exactly the header fields. -/
theorem zipRecord_keys (fields row : List String) :
    (zipRecord fields row).entries.map Prod.fst = fields := by
  simp only [zipRecord, List.map_map]
  simpa [Function.comp_def] using range_map_getD fields

/- ------------------------------------------------------------------ -/
/- Claims                                                              -/
/- ------------------------------------------------------------------ -/

/-- C1 (code bug): the claim says that a user who declines the
destructive-reload confirmation leaves the database untouched, but the
guard `input(...) == "delete" or "Delete" or "DELETE"` is always truthy,
so the script deletes the database even when the user types `"no"`:
the run issues `deleteDB` and never reaches the user-abort exit. -/
theorem C1_decline_still_deletes :
    DBOp.deleteDB ∈ (main_body envDecline).ops ∧
    (main_body envDecline).status ≠ ExitStatus.userAbort := by
  decide

/-- C2: a record whose nonempty insert statement the database fails to
act on (`outcome` returns `false`) is still committed and not counted as
a skip — the failure is swallowed as a success, its query is committed,
and the pass continues with the remaining records. -/
theorem C2_failed_insert_swallowed (inp : Builder) (outcome : String → Bool)
    (item : Item) (rest : List Item) (hq : inp.load item ≠ "")
    (_hfail : outcome (inp.load item) = false) :
    (loadPass inp outcome (item :: rest)).1 =
      (loadPass inp outcome rest).1 ∧
    (loadPass inp outcome (item :: rest)).2 =
      inp.load item :: (loadPass inp outcome rest).2 := by
  simp [loadPass, hq]

/-- C2 witness: concrete failing insert, swallowed as a success. -/
theorem C2_failed_insert_swallowed_witness :
    (loadPass bookInsertBuilder (fun _ => false) [emptyItem]).1 =
      (loadPass bookInsertBuilder (fun _ => false) []).1 ∧
    (loadPass bookInsertBuilder (fun _ => false) [emptyItem]).2 =
      bookInsertBuilder.load emptyItem ::
        (loadPass bookInsertBuilder (fun _ => false) []).2 :=
  C2_failed_insert_swallowed bookInsertBuilder (fun _ => false) emptyItem []
    (by decide) rfl

/-- C3: whenever a load pass completes with result `r`, the reported
inserted count plus the skip count equals the total, and the total is the
number of records parsed from the file. -/
theorem C3_inserted_plus_skipped (debug : Bool) (inp : Builder)
    (f : String → Bool) (lines : List String) (r : PassResult)
    (h : load_data_into_typedb debug inp f lines = Except.ok r) :
    r.inserted + r.skipped = r.total ∧
    r.total = (dictReader lines).length := by
  cases debug with
  | true => simp [load_data_into_typedb, parse_data_to_dictionaries] at h
  | false =>
      rw [load_data_into_typedb, parse_data_to_dictionaries] at h
      simp only [if_neg Bool.false_ne_true] at h
      rcases hd : dictReader lines with _ | ⟨it, its⟩ <;> rw [hd] at h
      · simp at h
      · simp only [Except.ok.injEq] at h
        subst h
        refine ⟨?_, by simp [hd]⟩
        have hle := loadPass_skip_le inp f (it :: its)
        simp only []
        omega

/-- C3 witness: a completed pass over one record, skipped. -/
theorem C3_inserted_plus_skipped_witness :
    witnessPassResult.inserted + witnessPassResult.skipped =
      witnessPassResult.total ∧
    witnessPassResult.total = (dictReader ["h", "a"]).length :=
  C3_inserted_plus_skipped false bookSkipBuilder (fun _ => true) ["h", "a"]
    witnessPassResult rfl

/-- C4: an empty statement never reaches the database — the record's
transaction commits nothing (the committed-query list is unchanged) and
the skip counter goes up by exactly one; and in general one record adds
at most one query to the committed list. -/
theorem C4_empty_statement_skipped (inp : Builder) (f : String → Bool)
    (item : Item) (rest : List Item) :
    (inp.load item = "" →
      (loadPass inp f (item :: rest)).1 = (loadPass inp f rest).1 + 1 ∧
      (loadPass inp f (item :: rest)).2 = (loadPass inp f rest).2) ∧
    (loadPass inp f (item :: rest)).2.length ≤
      (loadPass inp f rest).2.length + 1 := by
  constructor
  · intro h
    simp [loadPass, h]
  · by_cases h : inp.load item = "" <;> simp [loadPass, h]

/-- C4 witness: a concrete record whose statement is empty is skipped. -/
theorem C4_empty_statement_skipped_witness :
    (loadPass bookSkipBuilder (fun _ => true) [emptyItem]).1 =
      (loadPass bookSkipBuilder (fun _ => true) ([] : List Item)).1 + 1 ∧
    (loadPass bookSkipBuilder (fun _ => true) [emptyItem]).2 =
      (loadPass bookSkipBuilder (fun _ => true) ([] : List Item)).2 :=
  (C4_empty_statement_skipped bookSkipBuilder (fun _ => true) emptyItem []).1
    rfl

/-- C6: `has_existing_data` answers `True` exactly when the probe read
query succeeds; every exception, whatever its message, yields `False`. -/
theorem C6_probe_decides_existence (p : Except String Unit) (m : String)
    (u : Unit) :
    (has_existing_data p = true ↔ ∃ v, p = Except.ok v) ∧
    has_existing_data (Except.error m) = false ∧
    has_existing_data (Except.ok u) = true := by
  refine ⟨?_, rfl, rfl⟩
  cases p <;> simp [has_existing_data]

/-- C10: a CSV file holding only its header line makes
`load_data_into_typedb` raise `UnboundLocalError` at the summary print
(`input_object` is assigned only inside the per-record loop), instead of
reporting "0 out of 0" items. -/
theorem C10_empty_file_unbound_local (inp : Builder) (f : String → Bool)
    (header : String) :
    load_data_into_typedb false inp f [header] =
      Except.error PyErr.unboundLocalError := rfl

/-- C5: on every path of the main body, no insert query is submitted
before the schema define-transaction has been committed; and when schema
submission raises, the failure message is printed and no data insert is
submitted in that run. -/
theorem C5_schema_precedes_data (env : Env) :
    noInsertBeforeSchemaCommit (main_body env).ops = true ∧
    ∀ e, env.schemaResult = Except.error e →
      hasInsert (main_body env).ops = false ∧
      ("Failed to load schema: " ++ e) ∈ (main_body env).prints := by
  rcases env with ⟨dbE, probe, ui, sr, io, bs, fs, dbg⟩
  unfold main_body schemaThenData
  cases dbE <;> cases probe <;> cases sr <;>
    simp [has_existing_data, load_schema, confirmTaken_true,
      noInsertBeforeSchemaCommit, hasInsert]

/-- C5 witness: a concrete run whose schema submission fails reports the
failure and no data loading occurs. -/
theorem C5_schema_precedes_data_witness :
    noInsertBeforeSchemaCommit (main_body envSchemaFail).ops = true ∧
    (hasInsert (main_body envSchemaFail).ops = false ∧
      ("Failed to load schema: " ++ "boom") ∈ (main_body envSchemaFail).prints) :=
  ⟨(C5_schema_precedes_data envSchemaFail).1,
    (C5_schema_precedes_data envSchemaFail).2 "boom" rfl⟩

/-- C7 (code bug): the claim says the verbosity flag gates diagnostic
printing only, but with the flag set the first debug line of
`parse_data_to_dictionaries` evaluates `input["file"]` on the builder
class and raises `TypeError`: the verbose run crashes while the same run
without the flag completes normally, and the two runs do not perform the
same database operations. -/
theorem C7_verbosity_changes_behaviour :
    (main_body (envFresh true)).status = ExitStatus.crashed PyErr.typeError ∧
    (main_body (envFresh false)).status = ExitStatus.normal ∧
    (main_body (envFresh true)).ops ≠ (main_body (envFresh false)).ops := by
  refine ⟨rfl, rfl, ?_⟩
  decide

/-- C9: against an existing database with data, typing `"delete"` at the
prompt deletes the database, recreates it, applies and commits the
schema, and then performs the full data reload (`load_data`'s complete
operation sequence over every builder type). -/
theorem C9_delete_confirms_reload (env : Env) (h1 : env.dbExists = true)
    (h2 : env.probe = Except.ok ()) (h3 : env.userInput = "delete")
    (h4 : env.schemaResult = Except.ok ()) :
    (main_body env).ops =
      DBOp.deleteDB :: DBOp.createDB :: DBOp.defineSchema ::
        DBOp.commitSchema :: (load_data env).1 := by
  rcases env with ⟨dbE, probe, ui, sr, io, bs, fs, dbg⟩
  simp only at h1 h2 h3 h4
  subst h1 h2 h3 h4
  simp [main_body, schemaThenData, has_existing_data, confirmTaken_true,
    load_schema]

/-- C9 witness: the concrete reload environment. -/
theorem C9_delete_confirms_reload_witness :
    (main_body envReload).ops =
      DBOp.deleteDB :: DBOp.createDB :: DBOp.defineSchema ::
        DBOp.commitSchema :: (load_data envReload).1 :=
  C9_delete_confirms_reload envReload rfl rfl rfl rfl

/-- C8 (counterexample): the parser does not always produce
(line count − 1) records — `csv.DictReader` skips blank lines, so a
3-line file whose middle line is blank yields 1 record, not 2. -/
theorem C8_blank_line_counterexample :
    parse_data_to_dictionaries false bookInsertBuilder
        ["title;author", "", "a;b"] =
      Except.ok (dictReader ["title;author", "", "a;b"]) ∧
    (dictReader ["title;author", "", "a;b"]).length = 1 ∧
    (["title;author", "", "a;b"] : List String).length - 1 = 2 ∧
    (dictReader ["title;author", "", "a;b"]).length ≠
      (["title;author", "", "a;b"] : List String).length - 1 := by
  refine ⟨rfl, ?_, ?_, ?_⟩ <;> decide

/-- C8 (amended): for a CSV file with no embedded newlines and no blank
data lines, the parser yields exactly (line count − 1) records, one per
data line, each keyed by the first line's field names. -/
theorem C8_parser_row_count (inp : Builder) (header : String)
    (rest : List String) (hb : ∀ l ∈ rest, l ≠ "") :
    parse_data_to_dictionaries false inp (header :: rest) =
      Except.ok (dictReader (header :: rest)) ∧
    (dictReader (header :: rest)).length = (header :: rest).length - 1 ∧
    ∀ r ∈ dictReader (header :: rest),
      r.entries.map Prod.fst = csvSplitLine header := by
  have hfilter : (rest.map csvSplitLine).filter (· ≠ []) =
      rest.map csvSplitLine := by
    rw [List.filter_eq_self]
    intro a ha
    rcases List.mem_map.mp ha with ⟨l, hl, rfl⟩
    simpa using csvSplitLine_ne_nil l (hb l hl)
  refine ⟨rfl, ?_, ?_⟩
  · unfold dictReader
    simp only [hfilter, List.length_map, List.length_cons,
      Nat.add_sub_cancel]
  · intro r hr
    unfold dictReader at hr
    rcases List.mem_map.mp hr with ⟨row, _, rfl⟩
    exact zipRecord_keys _ _

/-- C8 witness: a concrete two-line file parses to one record with the
header's keys. -/
theorem C8_parser_row_count_witness :
    parse_data_to_dictionaries false bookInsertBuilder ["t;a", "x;y"] =
      Except.ok (dictReader ["t;a", "x;y"]) ∧
    (dictReader ["t;a", "x;y"]).length =
      (["t;a", "x;y"] : List String).length - 1 ∧
    ∀ r ∈ dictReader ["t;a", "x;y"],
      r.entries.map Prod.fst = csvSplitLine "t;a" :=
  C8_parser_row_count bookInsertBuilder "t;a" ["x;y"] (by decide)
